import Mathlib

/-!
# Verification of the weather-ai forecast service

A shallow embedding of `src/Develop/src/server.ts`: a single-endpoint
Express service that renders a prompt from a location string, invokes an
OpenAI completion model, `JSON.parse`s the raw string output, and returns
it under a `result` field.

Modelling conventions:
* JSON values are the inductive `Json`; machine details of JS values that
  no claim touches (floats, prototypes) are out of scope.
* The external LLM provider is an oracle `llm : ModelConfig → String → LlmResult`
  supplied per theorem: its behaviour is outside the repository.
* The JavaScript builtin `JSON.parse` is likewise external; it is passed
  in as `jsonParse : String → Option Json` (`none` models a thrown
  `SyntaxError`, which is an `Error` instance).
* The Express response object is modelled as the ordered list of sends the
  handler attempts.  Only the first attempted send reaches the client
  (later sends fail with a headers-already-sent error at the HTTP layer),
  so `clientResponse` is the head of that list.
* Thrown JS values are `JsError` with an `isErrorInstance` flag, since the
  endpoint's catch block branches on `error instanceof Error`.
-/

namespace WeatherAI

/-- JSON values, the shape of request and response bodies and of parsed
completions. -/
inductive Json where
  | null : Json
  | bool : Bool → Json
  | num : Int → Json
  | str : String → Json
  | arr : List Json → Json
  | obj : List (String × Json) → Json

/-- Whether a JSON value is a string (`z.string()` acceptance). -/
def Json.isStr : Json → Bool
  | .str _ => true
  | _ => false

/-- A JS thrown value: whether it is an `Error` instance, and its string
rendering (the message `console.error` would print). -/
structure JsError where
  isErrorInstance : Bool
  message : String

/-- The value `model.invoke` resolves with: the code checks
`typeof res === 'string'`, so a completion is either a string or some
other (already structured) value. -/
inductive Completion where
  | str : String → Completion
  | value : Json → Completion

/-- Result of one call to the external model: resolve with a completion
or reject with a thrown value. -/
inductive LlmResult where
  | ok : Completion → LlmResult
  | err : JsError → LlmResult

/-- The OpenAI client configuration built at lines 24-28 of server.ts:
`new OpenAI({ temperature: 0, openAIApiKey: apiKey, modelName: "gpt-3.5-turbo" })`. -/
structure ModelConfig where
  temperature : Nat
  modelName : String
  apiKey : String
deriving DecidableEq

/-- The configuration the source constructs from the startup credential. -/
def modelOf (apiKey : String) : ModelConfig :=
  { temperature := 0, modelName := "gpt-3.5-turbo", apiKey := apiKey }

/-- The Zod schema of lines 31-37: an object with string fields
`day1`..`day5` (extra keys are stripped, not rejected). -/
def forecastSchemaKeys : List String := ["day1", "day2", "day3", "day4", "day5"]

/-- Acceptance by the Zod schema `z.object({day1: z.string(), ..., day5: z.string()})`:
the candidate is an object carrying each of the five keys with a string value. -/
def zodForecastAccepts : Json → Bool
  | .obj fields =>
      forecastSchemaKeys.all fun k =>
        match fields.lookup k with
        | some v => v.isStr
        | none => false
  | _ => false

/-- The prompt template of lines 48-52, split at its single `{location}`
placeholder: the text before the slot. -/
def templateBefore : String :=
  "You are a sports announcer. Provide an exciting and energetic play-by-play of the weather forecast for "

/-- The prompt template of lines 48-52, split at its single `{location}`
placeholder: the text after the slot. -/
def templateAfter : String :=
  ". Make it sound like a thrilling sports commentary! Return the forcast as a JSON object with each day forecast as a property. The keys should be \"date-day1\", \"day-of-the-week-day1\", \"day1\", \"date-day2\", \"day-of-the-week-day2\", \"day2\", \"date-day3\", \"day-of-the-week-day3\", \"day3\", \"date-day4\", \"day-of-the-week-day4\", \"day4\", \"date-day5\", \"day-of-the-week-day5\", \"day5\". The JSON should be properly formatted. The first day should be today."

/-- `promptTemplate.format({location: input})`.  The template's only
placeholder is `{location}`; the partial variable `format_instructions`
has no matching placeholder, and the f-string renderer simply ignores
values for variables that do not occur in the template, so the rendered
prompt never depends on `formatInstructions`. -/
def promptTemplateFormat (formatInstructions location : String) : String :=
  templateBefore ++ location ++ templateAfter

/-- One invocation of the model: the client configuration it was issued
with and the prompt string sent. -/
structure LlmCall where
  config : ModelConfig
  prompt : String

/-- What one run of `promptFunc` produces: the value returned or the JS
value thrown, the model invocations made, and the `console.error` lines
emitted by `promptFunc`'s catch block. -/
structure PromptOutcome where
  result : Except JsError Json
  calls : List LlmCall
  log : List String

/-- The string `console.error('Error:', error)` prints for a thrown value. -/
def consoleErrorEntry (e : JsError) : String := "Error: " ++ e.message

/-- The `SyntaxError` thrown by `JSON.parse` on unparseable input.  Its
message text varies with the input at runtime; the embedding only relies
on it being an `Error` instance. -/
def jsonParseFailure : JsError :=
  { isErrorInstance := true, message := "SyntaxError: unexpected token in JSON" }

/-- `promptFunc` (lines 56-75): format the prompt, invoke the model once,
`JSON.parse` a string result (returning a non-string result as-is); the
catch block logs any thrown value and rethrows it.  No other model call
is made: the `outputFixingParser` of line 41 is only ever asked for
format instructions, never to parse or repair. -/
def promptFunc (jsonParse : String → Option Json) (llm : ModelConfig → String → LlmResult)
    (cfg : ModelConfig) (formatInstructions input : String) : PromptOutcome :=
  match llm cfg (promptTemplateFormat formatInstructions input) with
  | .err e =>
      { result := .error e
        calls := [{ config := cfg, prompt := promptTemplateFormat formatInstructions input }]
        log := [consoleErrorEntry e] }
  | .ok (.str s) =>
      match jsonParse s with
      | some v =>
          { result := .ok v
            calls := [{ config := cfg, prompt := promptTemplateFormat formatInstructions input }]
            log := [] }
      | none =>
          { result := .error jsonParseFailure
            calls := [{ config := cfg, prompt := promptTemplateFormat formatInstructions input }]
            log := [consoleErrorEntry jsonParseFailure] }
  | .ok (.value v) =>
      { result := .ok v
        calls := [{ config := cfg, prompt := promptTemplateFormat formatInstructions input }]
        log := [] }

/-- The value `promptFunc` resolves with for a given completion: a string
goes through `JSON.parse`, anything else is returned as-is (lines 64-67). -/
def completionValue (jsonParse : String → Option Json) : Completion → Option Json
  | .str s => jsonParse s
  | .value v => some v

/-- An HTTP response the handler attempts to send. -/
structure HttpResponse where
  status : Nat
  body : Json

/-- `req.body.location` is typed `string` but may be absent at runtime:
`none` models `undefined`. -/
def locSupplied : Option String → Bool
  | none => false
  | some s => !(s == "")

/-- The string the f-string renderer interpolates for the location value:
JS string concatenation renders `undefined` as `"undefined"`. -/
def locString : Option String → String
  | none => "undefined"
  | some s => s

/-- Response body helper `{ error: msg }`. -/
def errBody (msg : String) : Json := .obj [("error", .str msg)]

/-- The 400 body of lines 86-88. -/
def missingLocationBody : Json := errBody "Please provide a location in the request body."

/-- The 500 body of line 99. -/
def internalErrorBody : Json := errBody "Internal Server Error"

/-- What one run of the `POST /forecast` handler produces: the sends it
attempts (in order), the model invocations, and the `console.error`
output of `promptFunc` and of the endpoint catch block. -/
structure Outcome where
  responses : List HttpResponse
  calls : List LlmCall
  promptFuncLog : List String
  endpointLog : List String

/-- The missing-location branch of lines 85-89: it sends a 400 but does
NOT return, so execution continues into the pipeline afterwards. -/
def earlyResponses (location : Option String) : List HttpResponse :=
  if locSupplied location then [] else [{ status := 400, body := missingLocationBody }]

/-- The send the handler attempts after awaiting `promptFunc`:
`res.json({ result })` (default 200 status) on a resolved value, or the
catch block's `res.status(500).json({ error: 'Internal Server Error' })`
on a thrown one. -/
def finalSend (p : PromptOutcome) : HttpResponse :=
  match p.result with
  | .ok v => { status := 200, body := .obj [("result", v)] }
  | .error _ => { status := 500, body := internalErrorBody }

/-- The endpoint catch block of lines 94-98 logs the message only when the
thrown value satisfies `error instanceof Error`. -/
def endpointCatchLog (p : PromptOutcome) : List String :=
  match p.result with
  | .ok _ => []
  | .error e => if e.isErrorInstance then [consoleErrorEntry e] else []

/-- Assembling the handler's observable behaviour from the pipeline run:
the early (non-halting) 400 send, then the final send, the model calls,
and both logs. -/
def respond (location : Option String) (p : PromptOutcome) : Outcome :=
  { responses := earlyResponses location ++ [finalSend p]
    calls := p.calls
    promptFuncLog := p.log
    endpointLog := endpointCatchLog p }

/-- The `POST /forecast` handler (lines 80-101).  After the (non-halting)
missing-location check it always awaits `promptFunc` — even when the 400
was already sent — then attempts the final send. -/
def forecastHandler (jsonParse : String → Option Json) (llm : ModelConfig → String → LlmResult)
    (cfg : ModelConfig) (formatInstructions : String) (location : Option String) : Outcome :=
  respond location (promptFunc jsonParse llm cfg formatInstructions (locString location))

/-- Only the first attempted send reaches the client; later sends fail at
the HTTP layer because the headers are already sent. -/
def clientResponse (o : Outcome) : Option HttpResponse := o.responses.head?

/-- Process environment at startup. -/
structure Env where
  PORT : Option String
  OPENAI_API_KEY : Option String

/-- The state the process reaches after the top-level module code:
either the server is listening with its startup configuration, or the
process exited. -/
inductive StartupResult where
  | exited : Nat → List String → StartupResult
  | listening : ModelConfig → Option String → StartupResult

/-- Module top-level of lines 11-28 and 103-105: read the environment,
exit with code 1 after logging when the credential is falsy (absent or
empty), otherwise build the OpenAI client configuration once and start
listening.  The configuration is a module-level constant: nothing in the
file ever reassigns it. -/
def startup (env : Env) : StartupResult :=
  match env.OPENAI_API_KEY with
  | none => .exited 1 ["OPENAI_API_KEY is not defined. Exiting..."]
  | some k =>
      if k == "" then .exited 1 ["OPENAI_API_KEY is not defined. Exiting..."]
      else .listening (modelOf k) env.PORT

/-- Whether the startup outcome is a listening HTTP server. -/
def StartupResult.isListening : StartupResult → Bool
  | .listening _ _ => true
  | _ => false

/-! ### Concrete instantiations of the external oracles

Closed theorems (counterexamples and witnesses) need concrete values for
the two external functions.  Each stub's behaviour on the inputs actually
used agrees with the real runtime: `JSON.parse` on the two-character text
`\x7b\x7d` yields the empty object, on `[]` the empty array, and throws on
`Sunny!`. -/

/-- A model configuration for closed runs. -/
def cfgTest : ModelConfig := modelOf "test-api-key"

/-- `JSON.parse` behaviour on the empty-object source text. -/
def jsonParseEmptyObj : String → Option Json :=
  fun s => if s == "\x7b\x7d" then some (.obj []) else none

/-- `JSON.parse` behaviour on the empty-array source text. -/
def jsonParseEmptyArr : String → Option Json :=
  fun s => if s == "[]" then some (.arr []) else none

/-- `JSON.parse` behaviour on text that is not JSON at all. -/
def jsonParseNone : String → Option Json := fun _ => none

/-- A model oracle that always answers with the raw text of an empty
JSON object. -/
def llmEmptyObj : ModelConfig → String → LlmResult := fun _ _ => .ok (.str "\x7b\x7d")

/-- A model oracle that always answers with the raw text of an empty
JSON array. -/
def llmEmptyArr : ModelConfig → String → LlmResult := fun _ _ => .ok (.str "[]")

/-- A model oracle that always answers with prose that is not JSON. -/
def llmProse : ModelConfig → String → LlmResult := fun _ _ => .ok (.str "Sunny!")

/-- A model oracle that resolves with an already structured non-string
value. -/
def llmStructured : ModelConfig → String → LlmResult := fun _ _ => .ok (.value (.num 7))

/-- A provider error: an `Error` instance, as thrown by the OpenAI client. -/
def provErr : JsError := { isErrorInstance := true, message := "connection refused" }

/-- A model oracle that rejects with a provider error. -/
def llmProvErr : ModelConfig → String → LlmResult := fun _ _ => .err provErr

/-- A thrown value that is not an `Error` instance (JS permits throwing
any value). -/
def strThrow : JsError := { isErrorInstance := false, message := "thrown string" }

/-- A model oracle that rejects with a non-`Error` value. -/
def llmThrowStr : ModelConfig → String → LlmResult := fun _ _ => .err strThrow

/-! ### Helper lemmas -/

/-- `promptFunc` invokes the model exactly once, with the rendered prompt
and the configuration it was given, on every control path. -/
theorem promptFunc_calls (jsonParse : String → Option Json)
    (llm : ModelConfig → String → LlmResult) (cfg : ModelConfig)
    (formatInstructions input : String) :
    (promptFunc jsonParse llm cfg formatInstructions input).calls
      = [{ config := cfg, prompt := promptTemplateFormat formatInstructions input }] := by
  unfold promptFunc
  cases h : llm cfg (promptTemplateFormat formatInstructions input) with
  | ok c =>
    cases c with
    | str s => cases hp : jsonParse s <;> simp [hp]
    | value v => rfl
  | err e => rfl

/-- A successful run with a string completion sends the parsed value
under `result` with status 200, after whatever early sends occurred. -/
theorem respond_ok_responses (location : Option String) (p : PromptOutcome) (v : Json)
    (hp : p.result = .ok v) :
    (respond location p).responses
      = earlyResponses location ++ [{ status := 200, body := .obj [("result", v)] }] := by
  simp [respond, finalSend, hp]

/-- A failing run sends the generic 500 body, after whatever early sends
occurred. -/
theorem respond_error_responses (location : Option String) (p : PromptOutcome) (e : JsError)
    (hp : p.result = .error e) :
    (respond location p).responses
      = earlyResponses location ++ [{ status := 500, body := internalErrorBody }] := by
  simp [respond, finalSend, hp]

/-! ### Claim theorems -/

/-- C1: the claim says a missing-location request gets the 400 body and
causes zero Completion Client calls.  The source sets the 400 response
(which is the one the client receives) but the check does not halt the
handler: `promptFunc` still runs and invokes the model exactly once, with
the absent location interpolated as the text `undefined`.  This theorem
evaluates the handler at the failing input (body without `location`) and
records both facts. -/
theorem missing_location_sends_400_but_still_calls_llm
    (jsonParse : String → Option Json) (llm : ModelConfig → String → LlmResult)
    (cfg : ModelConfig) (formatInstructions : String) :
    clientResponse (forecastHandler jsonParse llm cfg formatInstructions none)
        = some { status := 400, body := missingLocationBody } ∧
    (forecastHandler jsonParse llm cfg formatInstructions none).calls
        = [{ config := cfg, prompt := promptTemplateFormat formatInstructions "undefined" }] := by
  constructor
  · rfl
  · show (promptFunc jsonParse llm cfg formatInstructions (locString none)).calls = _
    rw [promptFunc_calls]
    rfl

/-- C2 counterexample: a concrete request (`location = "Seattle"`) whose
raw completion is the text of an empty JSON object — a value that fails
the declared Zod schema.  The claim requires exactly one repair call to
the Completion Client and, on a second failure, a 500.  The code instead
makes exactly one model call in total (zero repair calls) and responds
200 with the non-conforming value. -/
theorem schema_failure_triggers_no_repair_call :
    (forecastHandler jsonParseEmptyObj llmEmptyObj cfgTest "" (some "Seattle")).calls.length = 1 ∧
    clientResponse (forecastHandler jsonParseEmptyObj llmEmptyObj cfgTest "" (some "Seattle"))
        = some { status := 200, body := .obj [("result", .obj [])] } ∧
    zodForecastAccepts (.obj []) = false :=
  ⟨rfl, rfl, rfl⟩

/-- C2 amended: no validation or repair path exists in the code — the
`outputFixingParser` is only consulted for format instructions — so every
request, whatever the completion or parse outcome, issues exactly one
call to the Completion Client; `SchemaValidationError` never arises, and
the only parse failure mode is the `JSON.parse` exception surfacing as
the generic 500. -/
theorem every_request_makes_exactly_one_llm_call
    (jsonParse : String → Option Json) (llm : ModelConfig → String → LlmResult)
    (cfg : ModelConfig) (formatInstructions : String) (location : Option String) :
    (forecastHandler jsonParse llm cfg formatInstructions location).calls.length = 1 := by
  show (promptFunc jsonParse llm cfg formatInstructions (locString location)).calls.length = 1
  rw [promptFunc_calls]
  rfl

/-- C3 counterexample: a concrete successful run (`location = "Seattle"`)
whose completion parses to an empty JSON array.  The endpoint responds
200 with that array under `result`, although its keys are not the five
schema keys `day1`..`day5` — the claimed key/type guarantee does not
hold. -/
theorem success_response_can_violate_schema :
    clientResponse (forecastHandler jsonParseEmptyArr llmEmptyArr cfgTest "" (some "Seattle"))
        = some { status := 200, body := .obj [("result", .arr [])] } ∧
    zodForecastAccepts (.arr []) = false :=
  ⟨rfl, rfl⟩

/-- C3 amended: for every non-empty `location` on which the pipeline
succeeds, the endpoint responds 200 with `{ result: v }` where `v` is
whatever value `JSON.parse` produced from the completion, verbatim; the
`day1`..`day5` key and string-type constraints are not enforced and may
fail to hold. -/
theorem success_returns_parsed_value_without_validation
    (jsonParse : String → Option Json) (llm : ModelConfig → String → LlmResult)
    (cfg : ModelConfig) (formatInstructions loc s : String) (v : Json)
    (hloc : locSupplied (some loc) = true)
    (hllm : llm cfg (promptTemplateFormat formatInstructions loc) = .ok (.str s))
    (hparse : jsonParse s = some v) :
    (forecastHandler jsonParse llm cfg formatInstructions (some loc)).responses
      = [{ status := 200, body := .obj [("result", v)] }] := by
  unfold forecastHandler
  rw [respond_ok_responses _ _ v]
  · simp [earlyResponses, hloc]
  · simp [promptFunc, locString, hllm, hparse]

/-- C3 amended, witnessed at a concrete input. -/
theorem success_returns_parsed_value_without_validation_witness :
    locSupplied (some "Seattle") = true ∧
    llmEmptyObj cfgTest (promptTemplateFormat "" "Seattle") = .ok (.str "\x7b\x7d") ∧
    jsonParseEmptyObj "\x7b\x7d" = some (.obj []) ∧
    (forecastHandler jsonParseEmptyObj llmEmptyObj cfgTest "" (some "Seattle")).responses
      = [{ status := 200, body := .obj [("result", .obj [])] }] :=
  ⟨rfl, rfl, rfl,
    success_returns_parsed_value_without_validation jsonParseEmptyObj llmEmptyObj cfgTest
      "" "Seattle" "\x7b\x7d" (.obj []) rfl rfl rfl⟩

/-- C4 counterexample: the rendered prompt is byte-for-byte identical for
two different formatting-instruction strings, and it is not the prompt
with the instructions appended — so the formatting instructions are not
part of the prompt.  (The template of lines 48-52 has no
`format_instructions` placeholder, so the partial variable is ignored by
the f-string renderer.) -/
theorem prompt_ignores_format_instructions_counterexample :
    promptTemplateFormat "A" "Seattle" = promptTemplateFormat "B" "Seattle" ∧
    promptTemplateFormat "A" "Seattle" ≠ promptTemplateFormat "" "Seattle" ++ "A" := by
  refine ⟨rfl, fun h => ?_⟩
  have hl := congrArg String.length h
  rw [String.length_append] at hl
  have he : promptTemplateFormat "A" "Seattle" = promptTemplateFormat "" "Seattle" := rfl
  rw [he] at hl
  have ha : ("A" : String).length = 1 := rfl
  rw [ha] at hl
  omega

/-- C4 amended: for every location the Prompt Builder produces the single
template with the location substituted into its one slot; the formatting
instructions rendered by the Output Schema are NOT appended — the
rendered prompt is independent of them. -/
theorem prompt_substitutes_location_only (formatInstructions loc : String) :
    promptTemplateFormat formatInstructions loc = templateBefore ++ loc ++ templateAfter ∧
    promptTemplateFormat formatInstructions loc = promptTemplateFormat "" loc :=
  ⟨rfl, rfl⟩

/-- C5: when the Completion Client rejects with a provider error (an
`Error` instance), the endpoint responds 500 with the fixed generic body
`{ error: "Internal Server Error" }` — a constant independent of the
error, so no detail can leak — and the error message is logged
server-side (by `promptFunc`'s catch block and again by the endpoint's). -/
theorem provider_error_gives_logged_generic_500
    (jsonParse : String → Option Json) (llm : ModelConfig → String → LlmResult)
    (cfg : ModelConfig) (formatInstructions loc : String) (e : JsError)
    (hloc : locSupplied (some loc) = true)
    (hllm : llm cfg (promptTemplateFormat formatInstructions loc) = .err e)
    (hinst : e.isErrorInstance = true) :
    (forecastHandler jsonParse llm cfg formatInstructions (some loc)).responses
        = [{ status := 500, body := errBody "Internal Server Error" }] ∧
    (forecastHandler jsonParse llm cfg formatInstructions (some loc)).promptFuncLog
        = [consoleErrorEntry e] ∧
    (forecastHandler jsonParse llm cfg formatInstructions (some loc)).endpointLog
        = [consoleErrorEntry e] := by
  unfold forecastHandler
  refine ⟨?_, ?_, ?_⟩
  · rw [respond_error_responses _ _ e]
    · simp [earlyResponses, hloc, internalErrorBody]
    · simp [promptFunc, locString, hllm]
  · show (promptFunc jsonParse llm cfg formatInstructions (locString (some loc))).log = _
    simp [promptFunc, locString, hllm]
  · show endpointCatchLog (promptFunc jsonParse llm cfg formatInstructions (locString (some loc))) = _
    simp [endpointCatchLog, promptFunc, locString, hllm, hinst]

/-- C5, witnessed at a concrete provider error. -/
theorem provider_error_gives_logged_generic_500_witness :
    locSupplied (some "Seattle") = true ∧
    llmProvErr cfgTest (promptTemplateFormat "" "Seattle") = .err provErr ∧
    provErr.isErrorInstance = true ∧
    ((forecastHandler jsonParseNone llmProvErr cfgTest "" (some "Seattle")).responses
        = [{ status := 500, body := errBody "Internal Server Error" }] ∧
      (forecastHandler jsonParseNone llmProvErr cfgTest "" (some "Seattle")).promptFuncLog
        = [consoleErrorEntry provErr] ∧
      (forecastHandler jsonParseNone llmProvErr cfgTest "" (some "Seattle")).endpointLog
        = [consoleErrorEntry provErr]) :=
  ⟨rfl, rfl, rfl,
    provider_error_gives_logged_generic_500 jsonParseNone llmProvErr cfgTest "" "Seattle"
      provErr rfl rfl rfl⟩

/-- C6: when the credential environment variable is absent, the module
top-level logs the error and exits with code 1 before any server is
created, so no request can ever reach the pipeline. -/
theorem missing_api_key_exits_before_listening (p : Option String) :
    startup { PORT := p, OPENAI_API_KEY := none }
        = .exited 1 ["OPENAI_API_KEY is not defined. Exiting..."] ∧
    (startup { PORT := p, OPENAI_API_KEY := none }).isListening = false :=
  ⟨rfl, rfl⟩

/-- C7: whenever startup reaches the listening state, the one OpenAI
client configuration it built has temperature 0, model identifier
`gpt-3.5-turbo`, and the credential read from the environment; and every
model call any request ever makes carries exactly that configuration
(the configuration is a module constant, never reassigned). -/
theorem every_llm_call_uses_fixed_startup_config
    (env : Env) (k : String) (cfg : ModelConfig) (port : Option String)
    (hk : env.OPENAI_API_KEY = some k)
    (hs : startup env = .listening cfg port) :
    cfg.temperature = 0 ∧ cfg.modelName = "gpt-3.5-turbo" ∧ cfg.apiKey = k ∧
    ∀ (jsonParse : String → Option Json) (llm : ModelConfig → String → LlmResult)
      (formatInstructions : String) (location : Option String),
      (forecastHandler jsonParse llm cfg formatInstructions location).calls.map LlmCall.config
        = [cfg] := by
  obtain ⟨p0, key0⟩ := env
  simp only [Env.OPENAI_API_KEY] at hk
  subst hk
  simp only [startup] at hs
  by_cases h0 : (k == "") = true
  · rw [if_pos h0] at hs
    exact StartupResult.noConfusion hs
  · rw [if_neg h0] at hs
    have hcfg : modelOf k = cfg := by injection hs
    subst hcfg
    refine ⟨rfl, rfl, rfl, ?_⟩
    intro jsonParse llm formatInstructions location
    show ((promptFunc jsonParse llm (modelOf k) formatInstructions
        (locString location)).calls).map LlmCall.config = _
    rw [promptFunc_calls]
    rfl

/-- C7, witnessed at a concrete environment. -/
theorem every_llm_call_uses_fixed_startup_config_witness :
    ({ PORT := none, OPENAI_API_KEY := some "sk-test" } : Env).OPENAI_API_KEY = some "sk-test" ∧
    startup { PORT := none, OPENAI_API_KEY := some "sk-test" }
        = .listening (modelOf "sk-test") none ∧
    ((modelOf "sk-test").temperature = 0 ∧ (modelOf "sk-test").modelName = "gpt-3.5-turbo" ∧
      (modelOf "sk-test").apiKey = "sk-test" ∧
      ∀ (jsonParse : String → Option Json) (llm : ModelConfig → String → LlmResult)
        (formatInstructions : String) (location : Option String),
        (forecastHandler jsonParse llm (modelOf "sk-test") formatInstructions location).calls.map
            LlmCall.config = [modelOf "sk-test"]) :=
  ⟨rfl, rfl,
    every_llm_call_uses_fixed_startup_config
      { PORT := none, OPENAI_API_KEY := some "sk-test" } "sk-test" (modelOf "sk-test") none
      rfl rfl⟩

/-- C8: when the completion is a string that `JSON.parse` cannot parse,
the thrown `SyntaxError` propagates out of `promptFunc` to the endpoint,
the response is the generic 500 body, and no second (repair) model call
is made. -/
theorem unparseable_completion_gives_500_without_repair
    (jsonParse : String → Option Json) (llm : ModelConfig → String → LlmResult)
    (cfg : ModelConfig) (formatInstructions loc s : String)
    (hloc : locSupplied (some loc) = true)
    (hllm : llm cfg (promptTemplateFormat formatInstructions loc) = .ok (.str s))
    (hparse : jsonParse s = none) :
    (forecastHandler jsonParse llm cfg formatInstructions (some loc)).responses
        = [{ status := 500, body := internalErrorBody }] ∧
    (forecastHandler jsonParse llm cfg formatInstructions (some loc)).calls.length = 1 := by
  constructor
  · unfold forecastHandler
    rw [respond_error_responses _ _ jsonParseFailure]
    · simp [earlyResponses, hloc]
    · simp [promptFunc, locString, hllm, hparse]
  · exact every_request_makes_exactly_one_llm_call jsonParse llm cfg formatInstructions (some loc)

/-- C8, witnessed at a concrete non-JSON completion. -/
theorem unparseable_completion_gives_500_without_repair_witness :
    locSupplied (some "Seattle") = true ∧
    llmProse cfgTest (promptTemplateFormat "" "Seattle") = .ok (.str "Sunny!") ∧
    jsonParseNone "Sunny!" = none ∧
    ((forecastHandler jsonParseNone llmProse cfgTest "" (some "Seattle")).responses
        = [{ status := 500, body := internalErrorBody }] ∧
      (forecastHandler jsonParseNone llmProse cfgTest "" (some "Seattle")).calls.length = 1) :=
  ⟨rfl, rfl, rfl,
    unparseable_completion_gives_500_without_repair jsonParseNone llmProse cfgTest ""
      "Seattle" "Sunny!" rfl rfl rfl⟩

/-- C9: whatever value the completion resolves to — a non-string value
verbatim, or any string `JSON.parse` accepts (object of arbitrary keys,
array, number, null) — the endpoint responds 200 with exactly that value
under `result`, performing no key or type validation. -/
theorem success_passes_completion_through_verbatim
    (jsonParse : String → Option Json) (llm : ModelConfig → String → LlmResult)
    (cfg : ModelConfig) (formatInstructions loc : String) (c : Completion) (v : Json)
    (hloc : locSupplied (some loc) = true)
    (hllm : llm cfg (promptTemplateFormat formatInstructions loc) = .ok c)
    (hval : completionValue jsonParse c = some v) :
    (forecastHandler jsonParse llm cfg formatInstructions (some loc)).responses
      = [{ status := 200, body := .obj [("result", v)] }] := by
  unfold forecastHandler
  rw [respond_ok_responses _ _ v]
  · simp [earlyResponses, hloc]
  · cases c with
    | str s =>
        simp only [completionValue] at hval
        simp [promptFunc, locString, hllm, hval]
    | value u =>
        simp only [completionValue, Option.some.injEq] at hval
        subst hval
        simp [promptFunc, locString, hllm]

/-- C9, witnessed at a concrete structured (non-string) completion. -/
theorem success_passes_completion_through_verbatim_witness :
    locSupplied (some "Seattle") = true ∧
    llmStructured cfgTest (promptTemplateFormat "" "Seattle") = .ok (.value (.num 7)) ∧
    completionValue jsonParseNone (.value (.num 7)) = some (.num 7) ∧
    (forecastHandler jsonParseNone llmStructured cfgTest "" (some "Seattle")).responses
      = [{ status := 200, body := .obj [("result", .num 7)] }] :=
  ⟨rfl, rfl, rfl,
    success_passes_completion_through_verbatim jsonParseNone llmStructured cfgTest ""
      "Seattle" (.value (.num 7)) (.num 7) rfl rfl rfl⟩

/-- C10: when the pipeline rejects with a value that is not an `Error`
instance, the endpoint still responds 500 with the generic body but its
catch block logs nothing (`console.error` there is guarded by
`error instanceof Error`). -/
theorem non_error_throw_gives_500_without_endpoint_log
    (jsonParse : String → Option Json) (llm : ModelConfig → String → LlmResult)
    (cfg : ModelConfig) (formatInstructions loc : String) (e : JsError)
    (hloc : locSupplied (some loc) = true)
    (hllm : llm cfg (promptTemplateFormat formatInstructions loc) = .err e)
    (hinst : e.isErrorInstance = false) :
    (forecastHandler jsonParse llm cfg formatInstructions (some loc)).responses
        = [{ status := 500, body := internalErrorBody }] ∧
    (forecastHandler jsonParse llm cfg formatInstructions (some loc)).endpointLog = [] := by
  constructor
  · unfold forecastHandler
    rw [respond_error_responses _ _ e]
    · simp [earlyResponses, hloc]
    · simp [promptFunc, locString, hllm]
  · show endpointCatchLog (promptFunc jsonParse llm cfg formatInstructions
        (locString (some loc))) = []
    simp [endpointCatchLog, promptFunc, locString, hllm, hinst]

/-- C10, witnessed at a concrete non-`Error` thrown value. -/
theorem non_error_throw_gives_500_without_endpoint_log_witness :
    locSupplied (some "Seattle") = true ∧
    llmThrowStr cfgTest (promptTemplateFormat "" "Seattle") = .err strThrow ∧
    strThrow.isErrorInstance = false ∧
    ((forecastHandler jsonParseNone llmThrowStr cfgTest "" (some "Seattle")).responses
        = [{ status := 500, body := internalErrorBody }] ∧
      (forecastHandler jsonParseNone llmThrowStr cfgTest "" (some "Seattle")).endpointLog = []) :=
  ⟨rfl, rfl, rfl,
    non_error_throw_gives_500_without_endpoint_log jsonParseNone llmThrowStr cfgTest ""
      "Seattle" strThrow rfl rfl rfl⟩

end WeatherAI
